import Mathlib

/-!
Shallow embedding of the `LLMQuestionAnswerer` class from
`rag_usage_example.ipynb`: a minimal retrieval-augmented question-answering
pipeline (chunking, embedding storage, cosine-similarity retrieval, answer
generation, structured output).

External collaborators (the transformer model, its tokenizer, nltk sentence
splitting, torch tensor arithmetic, Python json) are modelled as abstract
(possibly fallible) functions collected in the `Model` structure; fallible
Python calls become `Except String` values whose error payload stands for
`str(e)` of the raised exception.  Torch tensors of embeddings become lists of
rational vectors; the single semantic fact of `torch.Tensor.topk` that the
code relies on (descending order of the k largest entries, runtime error when
k exceeds the number of entries) is modelled explicitly in `topkIndices`.

Stateful methods mutate `self` in place in Python, so `add_rag_data` is
embedded as a function returning the post-call state together with the
call outcome: a Python exception raised after a field mutation leaves the
mutated state behind, and the embedding must be able to express that.
-/

namespace RAG

/-- A Python value as produced by `json.loads` / consumed by `json.dumps`:
enough of the Python data model for the structured-output path. -/
inductive PyVal where
  | str (s : String)
  | int (n : Int)
  | bool (b : Bool)
  | dict (fields : List (String × PyVal))
  | list (items : List PyVal)
  | null

/-- An embedding vector (one row of the `rag_embeddings` tensor); real entries
of torch tensors are modelled as rationals. -/
abbrev Vec := List ℚ

/-- A token id sequence as produced by the tokenizer. -/
abbrev Tokens := List Nat

/-- The external collaborators of the class: the pretrained model, its
tokenizer, nltk sentence splitting and Python json.  Every operation that can
raise in Python is an `Except String`. -/
structure Model where
  /-- `nltk.tokenize.sent_tokenize` -/
  sentTokenize : String → List String
  /-- `self.tokenizer.encode` (encode-only, no truncation), as used by
  `split_document` for sentence token counts. -/
  encode : String → Tokens
  /-- `self.tokenizer(text, return_tensors="pt", truncation=True, max_length=512)`:
  the fallible tokenization call of the generation paths. -/
  tokenize : String → Except String Tokens
  /-- `self.model.generate(**inputs, max_length=n)`: fallible generation; the
  second argument is the `max_length` value the call site computes under its
  decoding convention. -/
  generate : Tokens → Nat → Except String Tokens
  /-- `self.tokenizer.decode(outputs[0], skip_special_tokens=True)` -/
  decode : Tokens → Except String String
  /-- `self.get_embedding` on a batch of texts: the whole torch pipeline
  (tokenize with padding, encoder / full forward, mean pooling) is external
  numeric code, modelled as one fallible batch map producing one vector per
  input text. -/
  embedBatch : List String → Except String (List Vec)
  /-- `torch.cosine_similarity` between the (single) question embedding row
  and one stored embedding row. -/
  cosineSim : Vec → Vec → ℚ
  /-- `json.loads`, partial: `Option.none` is a `json.JSONDecodeError`. -/
  jsonLoads : String → Option PyVal
  /-- `json.dumps(·, indent=2)` -/
  jsonDumps : PyVal → String
  /-- `self.model.config.__dict__.get("max_position_embeddings", 500)`:
  `Option.none` when the config lacks the key. -/
  maxPositionEmbeddings : Option Int
  /-- `self.model.config.hidden_size` -/
  hiddenSize : Nat

/-- The mutable state of an `LLMQuestionAnswerer` instance (the fields of
`self` the core operations read and write). -/
structure QA where
  model_name : String
  model_type : String
  quest_ans_tokens_margin : Int
  rag_data : List String
  rag_embeddings : Option (List Vec)
  embedding_size : Nat
  rag_k_nearest_neighbors : Nat

/-- `LLMQuestionAnswerer.__init__`: accepts exactly the model types
`"seq2seq"` and `"causal"` (each selecting a model class) and raises
`ValueError` on anything else; starts with empty `rag_data`, `rag_embeddings
= None` and `rag_k_nearest_neighbors = 3`. -/
def initQA (M : Model) (model_name : String) (model_type : String)
    (quest_ans_tokens_margin : Int) : Except String QA :=
  if model_type == "seq2seq" then
    Except.ok
      { model_name := model_name
        model_type := model_type
        quest_ans_tokens_margin := quest_ans_tokens_margin
        rag_data := []
        rag_embeddings := Option.none
        embedding_size := M.hiddenSize
        rag_k_nearest_neighbors := 3 }
  else if model_type == "causal" then
    Except.ok
      { model_name := model_name
        model_type := model_type
        quest_ans_tokens_margin := quest_ans_tokens_margin
        rag_data := []
        rag_embeddings := Option.none
        embedding_size := M.hiddenSize
        rag_k_nearest_neighbors := 3 }
  else
    Except.error "Unsupported model type. Use 'seq2seq' or 'causal'."

/-- `LLMQuestionAnswerer.max_chunk_size`:
`config.__dict__.get("max_position_embeddings", 500) - quest_ans_tokens_margin`. -/
def maxChunkSize (M : Model) (qa : QA) : Int :=
  M.maxPositionEmbeddings.getD 500 - qa.quest_ans_tokens_margin

/-- The sentence-accumulating loop of `split_document`, kept at the level of
sentence lists: `chunks` are the flushed accumulators in emission order,
`current_chunk` the pending accumulator, `current_length` the running token
count.  The real code emits `" ".join(current_chunk)` at each flush;
`splitDocument` applies that join to each emitted group. -/
def splitDocAux (budget : Int) (lenS : String → Nat) :
    List String → List (List String) → List String → Nat → List (List String)
  | [], chunks, current_chunk, _ =>
      if current_chunk.isEmpty then chunks else chunks ++ [current_chunk]
  | sentence :: rest, chunks, current_chunk, current_length =>
      if ((current_length + lenS sentence : Nat) : Int) > budget then
        splitDocAux budget lenS rest
          (if current_chunk.isEmpty then chunks else chunks ++ [current_chunk])
          [sentence] (lenS sentence)
      else
        splitDocAux budget lenS rest chunks (current_chunk ++ [sentence])
          (current_length + lenS sentence)

/-- `split_document` before the `" ".join`: the chunks as lists of the
sentences they hold. -/
def splitDocumentGroups (M : Model) (qa : QA) (document : String) :
    List (List String) :=
  splitDocAux (maxChunkSize M qa) (fun s => (M.encode s).length)
    (M.sentTokenize document) [] [] 0

/-- `LLMQuestionAnswerer.split_document`. -/
def splitDocument (M : Model) (qa : QA) (document : String) : List String :=
  (splitDocumentGroups M qa document).map (fun c => String.intercalate " " c)

/-- Token length of a chunk group as the loop accounts for it: the sum of the
per-sentence `tokenizer.encode` lengths. -/
def groupTokenLen (lenS : String → Nat) (c : List String) : Nat :=
  (c.map lenS).sum

/-- `LLMQuestionAnswerer.summarize_chunk`: builds the instruction prefix plus
the chunk, tokenizes (fallible), generates under the active decoding
convention (fallible), decodes.  The prefix text itself is external prompt
material with no bearing on any claim; it is kept as one constant. -/
def summaryPrompt : String :=
  "Can you provide a comprehensive summary of the given text?                           The summary should cover all the key points and main ideas presented in the original text,                           while also condensing the information into a concise and easy-to-understand format.                           Please ensure that the summary includes relevant details and examples that support the main ideas,                           while avoiding any unnecessary information or repetition:"

/-- The tokenize / generate-under-convention / decode pipeline shared by
`summarize_chunk`, the plain path of `answer_question` and
`generate_structured_output` (each wraps it in its own `try`): seq2seq caps
generation at `max_length` absolute tokens, causal at
`input_length + max_length`. -/
def tokenizeGenerateDecode (M : Model) (model_type : String)
    (full_prompt : String) (max_length : Nat) : Except String String :=
  match M.tokenize full_prompt with
  | Except.error e => Except.error e
  | Except.ok inputs =>
    match (if model_type == "seq2seq" then M.generate inputs max_length
           else M.generate inputs (inputs.length + max_length)) with
    | Except.error e => Except.error e
    | Except.ok outputs => M.decode outputs

/-- `LLMQuestionAnswerer.summarize_chunk` (faults propagate: no try here). -/
def summarizeChunk (M : Model) (qa : QA) (chunk : String) (max_length : Nat) :
    Except String String :=
  tokenizeGenerateDecode M qa.model_type (summaryPrompt ++ chunk) max_length

/-- Number of rows of the `rag_embeddings` tensor (`None` holds no rows). -/
def QA.numEmbeddingRows (qa : QA) : Nat :=
  (qa.rag_embeddings.getD []).length

/-- The tail of `add_rag_data`: `torch.cat` of the new embedding rows onto
`rag_embeddings`, or direct assignment when it is still `None`. -/
def appendEmbeddings (qa : QA) (new_embeddings : List Vec) : QA :=
  match qa.rag_embeddings with
  | Option.none => { qa with rag_embeddings := some new_embeddings }
  | some old => { qa with rag_embeddings := some (old ++ new_embeddings) }

/-- `LLMQuestionAnswerer.add_rag_data`.  Returns the post-call state paired
with the call outcome; an `Except.error` outcome is a Python exception
propagating out of the method, and the paired state is what `self` holds at
that moment.  Mirrors the source order exactly: chunking, then (optionally)
summarization, then `rag_data.extend`, then embedding, then the
`rag_embeddings` update. -/
def add_rag_data (M : Model) (qa : QA) (documents : List String)
    (use_summaries : Bool) : QA × Except String Unit :=
  let all_chunks := (documents.map (fun doc => splitDocument M qa doc)).flatten
  if use_summaries then
    match all_chunks.mapM (fun chunk => summarizeChunk M qa chunk 100) with
    | Except.error e => (qa, Except.error e)
    | Except.ok summaries =>
      let qa1 := { qa with rag_data := qa.rag_data ++ summaries }
      match M.embedBatch summaries with
      | Except.error e => (qa1, Except.error e)
      | Except.ok new_embeddings =>
          (appendEmbeddings qa1 new_embeddings, Except.ok ())
  else
    let qa1 := { qa with rag_data := qa.rag_data ++ all_chunks }
    match M.embedBatch all_chunks with
    | Except.error e => (qa1, Except.error e)
    | Except.ok new_embeddings =>
        (appendEmbeddings qa1 new_embeddings, Except.ok ())

/-- The descending-value comparison `topk` selects by, on indices into the
similarity list. -/
def simGE (sims : List ℚ) (i j : Nat) : Prop :=
  sims.getD j 0 ≤ sims.getD i 0

instance (sims : List ℚ) : DecidableRel (simGE sims) :=
  fun i j => inferInstanceAs (Decidable (sims.getD j 0 ≤ sims.getD i 0))

instance (sims : List ℚ) : IsTotal Nat (simGE sims) :=
  ⟨fun i j => le_total (sims.getD j 0) (sims.getD i 0)⟩

instance (sims : List ℚ) : IsTrans Nat (simGE sims) :=
  ⟨fun _ _ _ h1 h2 => le_trans h2 h1⟩

/-- The indices of the `k` largest entries of `sims` in descending value
order.  Modelled from `torch.Tensor.topk` (`sorted=True` default): which
index wins an exact tie is left to the sort, matching torch's unspecified
tie order. -/
def selectTopK (sims : List ℚ) (k : Nat) : List Nat :=
  (List.insertionSort (simGE sims) (List.range sims.length)).take k

/-- `similarities.topk(k)` restricted to the index tensor the code uses.
Modelled from `torch.Tensor.topk`: raises a `RuntimeError` when `k` exceeds
the number of entries (torch does not clamp `k`). -/
def topkIndices (sims : List ℚ) (k : Nat) : Except String (List Nat) :=
  if k ≤ sims.length then Except.ok (selectTopK sims k)
  else Except.error "selected index k out of range"

/-- The similarity row `torch.cosine_similarity(question_embedding,
self.rag_embeddings)`: the 1×d question embedding broadcast against every
stored row. -/
def similarityRow (M : Model) (question_embedding : List Vec)
    (embs : List Vec) : List ℚ :=
  embs.map (fun e => M.cosineSim (question_embedding.headD []) e)

/-- `LLMQuestionAnswerer.get_relevant_context`: returns `""` when
`rag_embeddings is None`, otherwise embeds the question, ranks stored rows by
cosine similarity, takes the top `rag_k_nearest_neighbors` indices and joins
the corresponding `rag_data` entries with single spaces.  No try anywhere in
the method: every dependency fault propagates. -/
def get_relevant_context (M : Model) (qa : QA) (question : String) :
    Except String String :=
  match qa.rag_embeddings with
  | Option.none => Except.ok ""
  | some embs =>
    match M.embedBatch [question] with
    | Except.error e => Except.error e
    | Except.ok question_embedding =>
      let similarities := similarityRow M question_embedding embs
      match topkIndices similarities qa.rag_k_nearest_neighbors with
      | Except.error e => Except.error e
      | Except.ok indices =>
          Except.ok (String.intercalate " "
            (indices.map (fun i => qa.rag_data.getD i "")))

/-- Python truthiness of the `output_structure` argument
(`Dict[str, Any] = None`): `None` and the empty dict are falsy. -/
def truthyStructure : Option (List (String × PyVal)) → Bool
  | Option.none => false
  | some d => !d.isEmpty

/-- The full prompt `generate_structured_output` builds from the prompt and
`json.dumps(output_structure, indent=2)`. -/
def structuredFullPrompt (M : Model) (prompt : String)
    (output_structure : List (String × PyVal)) : String :=
  prompt ++ "\n\nGenerate a response in the following JSON structure:\n"
    ++ M.jsonDumps (PyVal.dict output_structure) ++ "\nResponse:"

/-- `LLMQuestionAnswerer.generate_structured_output`: generates under the
active convention, then tries `json.loads` on the decoded text.  Parse
success returns the parsed value verbatim (the type-validation call is
commented out in the source); `JSONDecodeError` yields the fixed error
record carrying the raw response; any fault in the outer try yields
an `"An error occurred: ..."` record.  Total: the method itself never
raises once the prompt is built. -/
def generate_structured_output (M : Model) (qa : QA) (prompt : String)
    (output_structure : List (String × PyVal)) (max_length : Nat) : PyVal :=
  let full_prompt := structuredFullPrompt M prompt output_structure
  match tokenizeGenerateDecode M qa.model_type full_prompt max_length with
  | Except.error e =>
      PyVal.dict [("error", PyVal.str ("An error occurred: " ++ e))]
  | Except.ok response =>
    match M.jsonLoads response with
    | some structured_output => structured_output
    | Option.none =>
        PyVal.dict [("error", PyVal.str "Failed to generate valid JSON structure"),
                    ("raw_response", PyVal.str response)]

/-- The value `answer_question` returns on the non-raising paths: plain text
or the structured-output dict. -/
inductive Answer where
  | text (s : String)
  | structured (d : PyVal)

/-- Prompt assembly of `answer_question`.  The retrieval call sits outside
the try block of the method, so its faults surface here as `Except.error`. -/
def buildFullPrompt (M : Model) (qa : QA) (prompt : String) (use_rag : Bool) :
    Except String String :=
  if use_rag then
    match get_relevant_context M qa prompt with
    | Except.error e => Except.error e
    | Except.ok context =>
        Except.ok ("Context: " ++ context ++ "\n\nQuestion: " ++ prompt
          ++ "\n\nAnswer:")
  else
    Except.ok ("Question: " ++ prompt ++ "\n\nAnswer:")

/-- `LLMQuestionAnswerer.answer_question`.  An `Except.error` result is an
exception escaping the method (only context retrieval can produce one: the
try block covers exactly tokenization, generation and decoding, and the
structured path is internally total). -/
def answer_question (M : Model) (qa : QA) (prompt : String) (use_rag : Bool)
    (max_length : Nat) (output_structure : Option (List (String × PyVal))) :
    Except String Answer :=
  match buildFullPrompt M qa prompt use_rag with
  | Except.error e => Except.error e
  | Except.ok full_prompt =>
    if truthyStructure output_structure then
      Except.ok (Answer.structured
        (generate_structured_output M qa full_prompt
          (output_structure.getD []) max_length))
    else
      match tokenizeGenerateDecode M qa.model_type full_prompt max_length with
      | Except.ok answer => Except.ok (Answer.text answer)
      | Except.error e => Except.ok (Answer.text ("An error occurred: " ++ e))

/-! Concrete instantiations of the external collaborators and of instance
states, used to evaluate the embedded operations on concrete inputs. -/

/-- A benign collaborator: one sentence per document, three tokens per
sentence, every fallible call succeeds, one embedding row per input text. -/
def Mbase : Model where
  sentTokenize s := [s]
  encode _ := [0, 1, 2]
  tokenize _ := Except.ok [0]
  generate t _ := Except.ok t
  decode _ := Except.ok "out"
  embedBatch ts := Except.ok (ts.map (fun _ => [1]))
  cosineSim _ _ := 1
  jsonLoads _ := Option.none
  jsonDumps _ := "null"
  maxPositionEmbeddings := some 500
  hiddenSize := 4

/-- A collaborator whose embedding call always raises. -/
def Mfail : Model :=
  { Mbase with embedBatch := fun _ => Except.error "embed failed" }

/-- A collaborator whose tokenization call always raises. -/
def Mtokfail : Model :=
  { Mbase with tokenize := fun _ => Except.error "tok boom" }

/-- A collaborator whose generation decodes to `"RESP"`, which `json.loads`
parses to the value `5`. -/
def Mjson : Model :=
  { Mbase with
      decode := fun _ => Except.ok "RESP"
      jsonLoads := fun s => if s == "RESP" then some (PyVal.int 5)
                            else Option.none }

/-- A collaborator whose generation decodes to text `json.loads` rejects. -/
def Mnonjson : Model :=
  { Mbase with decode := fun _ => Except.ok "not json at all" }

/-- A collaborator for retrieval runs: the question embeds to `[9]` and the
cosine similarity of a stored row is (arbitrarily) its first entry, so the
similarity ranking is read off the stored vectors directly. -/
def Mtop : Model :=
  { Mbase with
      embedBatch := fun _ => Except.ok [[9]]
      cosineSim := fun _ e => e.headD 0 }

/-- A collaborator for chunking runs: three sentences with token counts 3, 5
and 3, against a budget of `104 - 100 = 4`, so the middle sentence is
oversized. -/
def Msplit : Model :=
  { Mbase with
      sentTokenize := fun _ => ["a a", "bbbbb", "c c"]
      encode := fun s => List.range s.length
      maxPositionEmbeddings := some 104 }

/-- A freshly constructed seq2seq instance (empty store). -/
def qaEmpty : QA where
  model_name := "m"
  model_type := "seq2seq"
  quest_ans_tokens_margin := 100
  rag_data := []
  rag_embeddings := Option.none
  embedding_size := 4
  rag_k_nearest_neighbors := 3

/-- A store holding a single chunk (fewer than the default `k = 3`). -/
def qaOne : QA :=
  { qaEmpty with rag_data := ["only chunk"], rag_embeddings := some [[1]] }

/-- A store of four chunks whose (first-entry) similarities under `Mtop` are
`1, 5, 3, 2`. -/
def qaTop : QA :=
  { qaEmpty with
      rag_data := ["A", "B", "C", "D"]
      rag_embeddings := some [[1], [5], [3], [2]] }

/-! Helper lemmas about the top-k selection. -/

theorem selectTopK_length (sims : List ℚ) (k : Nat) (hk : k ≤ sims.length) :
    (selectTopK sims k).length = k := by
  unfold selectTopK
  rw [List.length_take,
    (List.perm_insertionSort (simGE sims) (List.range sims.length)).length_eq,
    List.length_range]
  omega

theorem selectTopK_nodup (sims : List ℚ) (k : Nat) :
    (selectTopK sims k).Nodup :=
  (((List.perm_insertionSort (simGE sims)
      (List.range sims.length)).nodup_iff).mpr
    (List.nodup_range sims.length)).sublist
    (List.take_sublist k _)

theorem selectTopK_mem_lt (sims : List ℚ) (k : Nat) (i : Nat)
    (hi : i ∈ selectTopK sims k) : i < sims.length :=
  List.mem_range.mp
    ((List.mem_insertionSort (simGE sims)).mp (List.mem_of_mem_take hi))

theorem selectTopK_pairwise (sims : List ℚ) (k : Nat) :
    (selectTopK sims k).Pairwise (simGE sims) :=
  (List.sorted_insertionSort (simGE sims) (List.range sims.length)).sublist
    (List.take_sublist k _)

theorem selectTopK_maximal (sims : List ℚ) (k : Nat)
    (i : Nat) (hi : i ∈ selectTopK sims k)
    (j : Nat) (hj : j < sims.length) (hj2 : j ∉ selectTopK sims k) :
    sims.getD j 0 ≤ sims.getD i 0 := by
  have hsorted := List.sorted_insertionSort (simGE sims) (List.range sims.length)
  have hjmem : j ∈ List.insertionSort (simGE sims) (List.range sims.length) :=
    (List.mem_insertionSort (simGE sims)).mpr (List.mem_range.mpr hj)
  rw [← List.take_append_drop k
    (List.insertionSort (simGE sims) (List.range sims.length))] at hjmem
  rcases List.mem_append.mp hjmem with h1 | h1
  · exact absurd h1 hj2
  · exact hsorted.rel_of_mem_take_of_mem_drop hi h1

/-! Helper lemmas about the chunking loop. -/

theorem splitDocAux_flatten (budget : Int) (lenS : String → Nat)
    (sents : List String) :
    ∀ (chunks : List (List String)) (cur : List String) (cl : Nat),
      (splitDocAux budget lenS sents chunks cur cl).flatten
        = chunks.flatten ++ (cur ++ sents) := by
  induction sents with
  | nil =>
      intro chunks cur cl
      simp only [splitDocAux]
      split
      · next h => simp [List.isEmpty_iff.mp h]
      · simp
  | cons s rest ih =>
      intro chunks cur cl
      simp only [splitDocAux]
      split
      · rw [ih]
        split
        · next h => simp [List.isEmpty_iff.mp h]
        · simp
      · rw [ih]
        simp

theorem splitDocAux_mem_of_mem (budget : Int) (lenS : String → Nat)
    (sents : List String) :
    ∀ (chunks : List (List String)) (cur : List String) (cl : Nat)
      (c : List String),
      c ∈ chunks → c ∈ splitDocAux budget lenS sents chunks cur cl := by
  induction sents with
  | nil =>
      intro chunks cur cl c hc
      simp only [splitDocAux]
      split
      · exact hc
      · exact List.mem_append_left _ hc
  | cons s rest ih =>
      intro chunks cur cl c hc
      simp only [splitDocAux]
      split
      · apply ih
        split
        · exact hc
        · exact List.mem_append_left _ hc
      · exact ih _ _ _ _ hc

theorem splitDocAux_oversized_current (budget : Int) (lenS : String → Nat)
    (sents : List String) (chunks : List (List String)) (s : String)
    (hs : (lenS s : Int) > budget) :
    [s] ∈ splitDocAux budget lenS sents chunks [s] (lenS s) := by
  cases sents with
  | nil =>
      simp only [splitDocAux]
      split
      · next h => simp at h
      · exact List.mem_append_right _ (by simp)
  | cons s2 rest =>
      simp only [splitDocAux]
      split
      · apply splitDocAux_mem_of_mem
        split
        · next h => simp at h
        · exact List.mem_append_right _ (by simp)
      · next h =>
          exfalso
          apply h
          push_cast
          omega

theorem splitDocAux_oversized_mem (budget : Int) (lenS : String → Nat)
    (sents : List String) (s : String) (hs : s ∈ sents)
    (hover : (lenS s : Int) > budget) :
    ∀ (chunks : List (List String)) (cur : List String) (cl : Nat),
      [s] ∈ splitDocAux budget lenS sents chunks cur cl := by
  induction sents with
  | nil => cases hs
  | cons a rest ih =>
      intro chunks cur cl
      rcases List.mem_cons.mp hs with rfl | hmem
      · have hcond : ((cl + lenS s : Nat) : Int) > budget := by
          push_cast
          omega
        simp only [splitDocAux]
        rw [if_pos hcond]
        exact splitDocAux_oversized_current budget lenS rest _ s hover
      · simp only [splitDocAux]
        split
        · exact ih hmem _ _ _
        · exact ih hmem _ _ _

theorem splitDocAux_budget (budget : Int) (lenS : String → Nat)
    (sents : List String) :
    ∀ (chunks : List (List String)) (cur : List String) (cl : Nat),
      cl = groupTokenLen lenS cur →
      (∀ c ∈ chunks, ((groupTokenLen lenS c : Int) ≤ budget) ∨
          ∃ s, c = [s] ∧ ((lenS s : Int) > budget)) →
      (cur = [] ∨ ((groupTokenLen lenS cur : Int) ≤ budget) ∨
          ∃ s, cur = [s] ∧ ((lenS s : Int) > budget)) →
      ∀ c ∈ splitDocAux budget lenS sents chunks cur cl,
        ((groupTokenLen lenS c : Int) ≤ budget) ∨
          ∃ s, c = [s] ∧ ((lenS s : Int) > budget) := by
  induction sents with
  | nil =>
      intro chunks cur cl hcl hchunks hcur c hc
      simp only [splitDocAux] at hc
      split at hc
      · exact hchunks c hc
      · next h =>
          rcases List.mem_append.mp hc with h1 | h1
          · exact hchunks c h1
          · have hce : c = cur := by simpa using h1
            subst hce
            rcases hcur with rfl | hgood
            · simp at h
            · exact hgood
  | cons s rest ih =>
      intro chunks cur cl hcl hchunks hcur c hc
      simp only [splitDocAux] at hc
      split at hc
      · refine ih _ [s] (lenS s) ?_ ?_ ?_ c hc
        · simp [groupTokenLen]
        · intro c' hc'
          split at hc'
          · exact hchunks c' hc'
          · next hne =>
              rcases List.mem_append.mp hc' with h1 | h1
              · exact hchunks c' h1
              · have hce : c' = cur := by simpa using h1
                subst hce
                rcases hcur with rfl | hgood
                · simp at hne
                · exact hgood
        · rcases le_or_lt ((lenS s : Int)) budget with hle | hgt
          · right
            left
            simpa [groupTokenLen] using hle
          · right
            right
            exact ⟨s, rfl, hgt⟩
      · next hnle =>
          refine ih chunks (cur ++ [s]) _ ?_ hchunks ?_ c hc
          · subst hcl
            simp [groupTokenLen]
          · right
            left
            have hle := not_lt.mp hnle
            subst hcl
            rw [groupTokenLen] at hle ⊢
            simpa using hle

/-! Helper lemmas about the answer path. -/

theorem buildFullPrompt_no_rag (M : Model) (qa : QA) (prompt : String) :
    buildFullPrompt M qa prompt false
      = Except.ok ("Question: " ++ prompt ++ "\n\nAnswer:") := rfl

theorem answer_question_of_fullPrompt (M : Model) (qa : QA) (prompt : String)
    (use_rag : Bool) (max_length : Nat) (os : Option (List (String × PyVal)))
    (fp : String) (h : buildFullPrompt M qa prompt use_rag = Except.ok fp) :
    answer_question M qa prompt use_rag max_length os =
      (if truthyStructure os then
        Except.ok (Answer.structured
          (generate_structured_output M qa fp (os.getD []) max_length))
      else
        match tokenizeGenerateDecode M qa.model_type fp max_length with
        | Except.ok answer => Except.ok (Answer.text answer)
        | Except.error e =>
            Except.ok (Answer.text ("An error occurred: " ++ e))) := by
  unfold answer_question
  rw [h]

theorem answer_question_of_fullPrompt_error (M : Model) (qa : QA)
    (prompt : String) (use_rag : Bool) (max_length : Nat)
    (os : Option (List (String × PyVal))) (e : String)
    (h : buildFullPrompt M qa prompt use_rag = Except.error e) :
    answer_question M qa prompt use_rag max_length os = Except.error e := by
  unfold answer_question
  rw [h]

theorem answer_question_ok_of_fullPrompt (M : Model) (qa : QA)
    (prompt : String) (use_rag : Bool) (max_length : Nat)
    (os : Option (List (String × PyVal))) (fp : String)
    (h : buildFullPrompt M qa prompt use_rag = Except.ok fp) :
    ∃ a, answer_question M qa prompt use_rag max_length os = Except.ok a := by
  rw [answer_question_of_fullPrompt M qa prompt use_rag max_length os fp h]
  by_cases ht : truthyStructure os = true
  · rw [if_pos ht]
    exact ⟨_, rfl⟩
  · rw [if_neg ht]
    cases tokenizeGenerateDecode M qa.model_type fp max_length with
    | ok a => exact ⟨Answer.text a, rfl⟩
    | error e => exact ⟨Answer.text ("An error occurred: " ++ e), rfl⟩

theorem appendEmbeddings_model_type (qa : QA) (v : List Vec) :
    (appendEmbeddings qa v).model_type = qa.model_type := by
  unfold appendEmbeddings
  split <;> rfl

theorem add_rag_data_model_type (M : Model) (qa : QA) (documents : List String)
    (use_summaries : Bool) :
    (add_rag_data M qa documents use_summaries).1.model_type = qa.model_type := by
  unfold add_rag_data
  by_cases hu : use_summaries = true
  · rw [if_pos hu]
    split
    · rfl
    · split
      · rfl
      · exact appendEmbeddings_model_type _ _
  · rw [if_neg hu]
    split
    · rfl
    · exact appendEmbeddings_model_type _ _

/-! The claims. -/

/-- Claim C1, evidence of the code bug: `add_rag_data` extends `rag_data`
before calling the embedder, so when embedding a batch faults the call raises
with `rag_data` already grown while `rag_embeddings` still holds its old
rows: the store is left with `len(rag_data) = 1` but `0` embedding rows, not
"exactly as it was before the call" as the claimed atomicity requires. -/
theorem add_rag_data_embed_fault_leaves_store_inconsistent :
    (add_rag_data Mfail qaEmpty ["Paris is nice."] false).2
        = Except.error "embed failed" ∧
    (add_rag_data Mfail qaEmpty ["Paris is nice."] false).1.rag_data.length = 1 ∧
    (add_rag_data Mfail qaEmpty ["Paris is nice."] false).1.numEmbeddingRows = 0 ∧
    qaEmpty.rag_data.length = 0 ∧ qaEmpty.numEmbeddingRows = 0 :=
  ⟨rfl, rfl, rfl, rfl, rfl⟩

/-- Claim C2, evidence of the code bug: on a non-empty store holding fewer
chunks than `rag_k_nearest_neighbors` (here one chunk against the default
`k = 3`), `get_relevant_context` does error: `similarities.topk(k)` is called
with `k` unclamped and torch raises, so the retrieval fault propagates
instead of `k` being clamped to the store size. -/
theorem get_relevant_context_raises_on_small_store :
    get_relevant_context Mbase qaOne "What?"
        = Except.error "selected index k out of range" ∧
    qaOne.rag_data.length = 1 ∧
    qaOne.rag_k_nearest_neighbors = 3 :=
  ⟨rfl, rfl, rfl⟩

/-- Claim C3: on a store of `n` chunks with `k = rag_k_nearest_neighbors ≤ n`
whose question embedding succeeds, `get_relevant_context` returns exactly the
texts of `k` distinct stored indices joined with single spaces, ordered by
descending cosine similarity to the question embedding, and every selected
index's similarity is at least every unselected index's similarity (ties
broken however the sort breaks them). -/
theorem get_relevant_context_topk (M : Model) (qa : QA) (question : String)
    (embs question_embedding : List Vec)
    (hE : qa.rag_embeddings = some embs)
    (hq : M.embedBatch [question] = Except.ok question_embedding)
    (hk : qa.rag_k_nearest_neighbors ≤ embs.length) :
    ∃ indices : List Nat,
      get_relevant_context M qa question =
        Except.ok (String.intercalate " "
          (indices.map (fun i => qa.rag_data.getD i ""))) ∧
      indices.length = qa.rag_k_nearest_neighbors ∧
      indices.Nodup ∧
      (∀ i ∈ indices, i < embs.length) ∧
      indices.Pairwise (fun i j =>
        (similarityRow M question_embedding embs).getD j 0
          ≤ (similarityRow M question_embedding embs).getD i 0) ∧
      (∀ i ∈ indices, ∀ j, j < embs.length → j ∉ indices →
        (similarityRow M question_embedding embs).getD j 0
          ≤ (similarityRow M question_embedding embs).getD i 0) := by
  have hlen : (similarityRow M question_embedding embs).length = embs.length := by
    simp [similarityRow]
  have hk' : qa.rag_k_nearest_neighbors
      ≤ (similarityRow M question_embedding embs).length := by
    rw [hlen]
    exact hk
  refine ⟨selectTopK (similarityRow M question_embedding embs)
      qa.rag_k_nearest_neighbors, ?_, ?_, ?_, ?_, ?_, ?_⟩
  · simp only [get_relevant_context, hE, hq, topkIndices, if_pos hk']
  · exact selectTopK_length _ _ hk'
  · exact selectTopK_nodup _ _
  · intro i hi
    have h2 := selectTopK_mem_lt _ _ i hi
    rwa [hlen] at h2
  · exact selectTopK_pairwise _ _
  · intro i hi j hj hj2
    exact selectTopK_maximal _ _ i hi j (by rwa [hlen]) hj2

/-- Witness for C3 on a concrete store: four chunks with similarities
`1, 5, 3, 2` and `k = 3`. -/
theorem get_relevant_context_topk_witness :
    ∃ indices : List Nat,
      get_relevant_context Mtop qaTop "q" =
        Except.ok (String.intercalate " "
          (indices.map (fun i => qaTop.rag_data.getD i ""))) ∧
      indices.length = qaTop.rag_k_nearest_neighbors ∧
      indices.Nodup ∧
      (∀ i ∈ indices, i < ([[1], [5], [3], [2]] : List Vec).length) ∧
      indices.Pairwise (fun i j =>
        (similarityRow Mtop [[9]] [[1], [5], [3], [2]]).getD j 0
          ≤ (similarityRow Mtop [[9]] [[1], [5], [3], [2]]).getD i 0) ∧
      (∀ i ∈ indices, ∀ j, j < ([[1], [5], [3], [2]] : List Vec).length →
        j ∉ indices →
        (similarityRow Mtop [[9]] [[1], [5], [3], [2]]).getD j 0
          ≤ (similarityRow Mtop [[9]] [[1], [5], [3], [2]]).getD i 0) :=
  get_relevant_context_topk Mtop qaTop "q" [[1], [5], [3], [2]] [[9]]
    rfl rfl (by decide)

/-- Claim C4: the chunk groups `split_document` builds flatten back to the
sentence list of the document — every sentence lands in exactly one chunk, in
original order, none dropped, duplicated or split — and the returned chunks
are exactly those groups joined with single spaces. -/
theorem split_document_coverage (M : Model) (qa : QA) (document : String) :
    (splitDocumentGroups M qa document).flatten = M.sentTokenize document ∧
    splitDocument M qa document
      = (splitDocumentGroups M qa document).map
          (fun c => String.intercalate " " c) := by
  refine ⟨?_, rfl⟩
  have h := splitDocAux_flatten (maxChunkSize M qa)
    (fun s => (M.encode s).length) (M.sentTokenize document) [] [] 0
  simpa [splitDocumentGroups] using h

/-- Claim C5: every chunk `split_document` emits has total token length (sum
of its sentences' `tokenizer.encode` lengths, as the loop accounts) at most
the budget `max_chunk_size`, except chunks holding a single sentence whose
own token count exceeds the budget; and every such oversized sentence is
emitted alone as its own chunk. -/
theorem split_document_budget (M : Model) (qa : QA) (document : String) :
    (∀ c ∈ splitDocumentGroups M qa document,
        ((groupTokenLen (fun s => (M.encode s).length) c : Int)
            ≤ maxChunkSize M qa) ∨
        ∃ s, c = [s] ∧ (((M.encode s).length : Int) > maxChunkSize M qa)) ∧
    (∀ s ∈ M.sentTokenize document,
        (((M.encode s).length : Int) > maxChunkSize M qa) →
        [s] ∈ splitDocumentGroups M qa document) := by
  constructor
  · intro c hc
    exact splitDocAux_budget (maxChunkSize M qa) _ (M.sentTokenize document)
      [] [] 0 (by simp [groupTokenLen]) (by simp) (Or.inl rfl) c hc
  · intro s hs hover
    exact splitDocAux_oversized_mem _ _ _ s hs hover [] [] 0

/-- Witness for C5: under `Msplit` the budget is `4` and the middle sentence
has `5` tokens, and it is emitted alone as its own chunk. -/
theorem split_document_budget_witness :
    ["bbbbb"] ∈ splitDocumentGroups Msplit qaEmpty "doc" :=
  (split_document_budget Msplit qaEmpty "doc").2 "bbbbb" (by decide) (by decide)

/-- Claim C6: querying while `rag_embeddings is None` (no `add` has
succeeded) returns the empty string for every collaborator — including one
whose embedder always raises, so the embedder is not consulted and nothing
faults — and the downstream answer path proceeds, building the
empty-context prompt and returning a textual answer. -/
theorem empty_store_query_ok (M : Model) (qa : QA) (prompt : String)
    (max_length : Nat) (h : qa.rag_embeddings = Option.none) :
    get_relevant_context M qa prompt = Except.ok "" ∧
    buildFullPrompt M qa prompt true
      = Except.ok ("Context: " ++ "" ++ "\n\nQuestion: " ++ prompt
          ++ "\n\nAnswer:") ∧
    ∃ s, answer_question M qa prompt true max_length Option.none
        = Except.ok (Answer.text s) := by
  have h1 : get_relevant_context M qa prompt = Except.ok "" := by
    unfold get_relevant_context
    rw [h]
  have h2 : buildFullPrompt M qa prompt true
      = Except.ok ("Context: " ++ "" ++ "\n\nQuestion: " ++ prompt
          ++ "\n\nAnswer:") := by
    unfold buildFullPrompt
    rw [if_pos rfl, h1]
  refine ⟨h1, h2, ?_⟩
  rw [answer_question_of_fullPrompt M qa prompt true max_length Option.none _ h2]
  rw [if_neg (by simp [truthyStructure])]
  cases tokenizeGenerateDecode M qa.model_type
      ("Context: " ++ "" ++ "\n\nQuestion: " ++ prompt ++ "\n\nAnswer:")
      max_length with
  | ok a => exact ⟨a, rfl⟩
  | error e => exact ⟨"An error occurred: " ++ e, rfl⟩

/-- Witness for C6 on a fresh store against a collaborator whose embedder
always raises. -/
theorem empty_store_query_ok_witness :
    get_relevant_context Mfail qaEmpty "q" = Except.ok "" ∧
    buildFullPrompt Mfail qaEmpty "q" true
      = Except.ok ("Context: " ++ "" ++ "\n\nQuestion: " ++ "q"
          ++ "\n\nAnswer:") ∧
    ∃ s, answer_question Mfail qaEmpty "q" true 100 Option.none
        = Except.ok (Answer.text s) :=
  empty_store_query_ok Mfail qaEmpty "q" 100 rfl

/-- Claim C7, counterexample: context retrieval sits outside the try block of
`answer_question`, so a dependency fault raised while retrieving context
(here the embedder raising on the question) propagates to the caller instead
of being converted into a textual error message. -/
theorem answer_question_escapes_retrieval_fault :
    answer_question Mfail qaOne "q" true 100 Option.none
      = Except.error "embed failed" := rfl

/-- Claim C7 as amended: `answer_question` raises exactly when context
retrieval raises (with `use_context` true); every fault inside the try block
— tokenization, generation, decoding — is caught and returned as the text
`"An error occurred: ..."`, and with `use_context` false the call never
raises. -/
theorem answer_question_fault_policy (M : Model) (qa : QA) (prompt : String)
    (use_rag : Bool) (max_length : Nat)
    (os : Option (List (String × PyVal))) :
    (∀ e, answer_question M qa prompt use_rag max_length os = Except.error e ↔
        (use_rag = true ∧ get_relevant_context M qa prompt = Except.error e)) ∧
    (∀ fp e, buildFullPrompt M qa prompt use_rag = Except.ok fp →
        truthyStructure os = false →
        tokenizeGenerateDecode M qa.model_type fp max_length = Except.error e →
        answer_question M qa prompt use_rag max_length os =
          Except.ok (Answer.text ("An error occurred: " ++ e))) := by
  constructor
  · intro e
    constructor
    · intro herr
      cases use_rag with
      | false =>
          rcases answer_question_ok_of_fullPrompt M qa prompt false max_length
            os _ (buildFullPrompt_no_rag M qa prompt) with ⟨a, ha⟩
          rw [ha] at herr
          cases herr
      | true =>
          cases hctx : get_relevant_context M qa prompt with
          | ok ctx =>
              have hfp : buildFullPrompt M qa prompt true
                  = Except.ok ("Context: " ++ ctx ++ "\n\nQuestion: " ++ prompt
                      ++ "\n\nAnswer:") := by
                unfold buildFullPrompt
                rw [if_pos rfl, hctx]
              rcases answer_question_ok_of_fullPrompt M qa prompt true
                max_length os _ hfp with ⟨a, ha⟩
              rw [ha] at herr
              cases herr
          | error e' =>
              have hfp : buildFullPrompt M qa prompt true = Except.error e' := by
                unfold buildFullPrompt
                rw [if_pos rfl, hctx]
              rw [answer_question_of_fullPrompt_error M qa prompt true
                max_length os e' hfp] at herr
              injection herr with herr
              subst herr
              exact ⟨rfl, rfl⟩
    · rintro ⟨hrag, hctx⟩
      subst hrag
      apply answer_question_of_fullPrompt_error
      unfold buildFullPrompt
      rw [if_pos rfl, hctx]
  · intro fp e hfp ht htgd
    rw [answer_question_of_fullPrompt M qa prompt use_rag max_length os fp hfp,
      if_neg (by rw [ht]; exact Bool.false_ne_true), htgd]

/-- Witness for the amended C7: a tokenizer that always raises makes
`answer_question` return the textual error, not raise. -/
theorem answer_question_fault_policy_witness :
    answer_question Mtokfail qaEmpty "q" false 100 Option.none =
      Except.ok (Answer.text ("An error occurred: " ++ "tok boom")) :=
  (answer_question_fault_policy Mtokfail qaEmpty "q" false 100 Option.none).2
    ("Question: " ++ "q" ++ "\n\nAnswer:") "tok boom" rfl rfl rfl

/-- Claim C8: `generate_structured_output` returns the parsed mapping
verbatim when `json.loads` succeeds on the decoded generation, the fixed
parse-failure record carrying the raw decoded text when it does not, and the
`"An error occurred: ..."` record when tokenization, generation or decoding
fault; it never raises past prompt assembly. -/
theorem generate_structured_output_contract (M : Model) (qa : QA)
    (prompt : String) (output_structure : List (String × PyVal))
    (max_length : Nat) :
    (∀ response j,
        tokenizeGenerateDecode M qa.model_type
            (structuredFullPrompt M prompt output_structure) max_length
          = Except.ok response →
        M.jsonLoads response = some j →
        generate_structured_output M qa prompt output_structure max_length
          = j) ∧
    (∀ response,
        tokenizeGenerateDecode M qa.model_type
            (structuredFullPrompt M prompt output_structure) max_length
          = Except.ok response →
        M.jsonLoads response = Option.none →
        generate_structured_output M qa prompt output_structure max_length
          = PyVal.dict
              [("error", PyVal.str "Failed to generate valid JSON structure"),
               ("raw_response", PyVal.str response)]) ∧
    (∀ e,
        tokenizeGenerateDecode M qa.model_type
            (structuredFullPrompt M prompt output_structure) max_length
          = Except.error e →
        generate_structured_output M qa prompt output_structure max_length
          = PyVal.dict [("error", PyVal.str ("An error occurred: " ++ e))]) := by
  refine ⟨?_, ?_, ?_⟩
  · intro response j htgd hload
    simp only [generate_structured_output, htgd, hload]
  · intro response htgd hload
    simp only [generate_structured_output, htgd, hload]
  · intro e htgd
    simp only [generate_structured_output, htgd]

/-- Witness for C8: a run whose decoded generation parses to the value `5`
is returned verbatim. -/
theorem generate_structured_output_contract_witness :
    generate_structured_output Mjson qaEmpty "p"
        [("name", PyVal.str "string")] 200 = PyVal.int 5 :=
  (generate_structured_output_contract Mjson qaEmpty "p"
    [("name", PyVal.str "string")] 200).1 "RESP" (PyVal.int 5) rfl rfl

/-- Claim C9: construction validates the decoding convention: any value
other than `"seq2seq"` and `"causal"` raises the fixed `ValueError`
immediately and produces no object; a successful construction records
exactly the requested convention, and the only mutating operation,
`add_rag_data`, never changes it — the convention is fixed for the object's
lifetime. -/
theorem initQA_model_type_validation (M : Model) (name mt : String)
    (margin : Int) :
    (mt ≠ "seq2seq" → mt ≠ "causal" →
        initQA M name mt margin
          = Except.error "Unsupported model type. Use 'seq2seq' or 'causal'.") ∧
    (∀ qa, initQA M name mt margin = Except.ok qa →
        (mt = "seq2seq" ∨ mt = "causal") ∧ qa.model_type = mt) ∧
    (∀ qa documents use_summaries,
        (add_rag_data M qa documents use_summaries).1.model_type
          = qa.model_type) := by
  refine ⟨?_, ?_, ?_⟩
  · intro h1 h2
    have hb1 : (mt == "seq2seq") = false := by simp [h1]
    have hb2 : (mt == "causal") = false := by simp [h2]
    simp [initQA, hb1, hb2]
  · intro qa h
    unfold initQA at h
    split at h
    · next hb =>
        refine ⟨Or.inl (by simpa using hb), ?_⟩
        injection h with h
        subst h
        rfl
    · split at h
      · next hb =>
          refine ⟨Or.inr (by simpa using hb), ?_⟩
          injection h with h
          subst h
          rfl
      · cases h
  · intro qa documents use_summaries
    exact add_rag_data_model_type M qa documents use_summaries

/-- Witness for C9: the model type `"gpt"` is rejected with the exact
`ValueError` message. -/
theorem initQA_model_type_validation_witness :
    initQA Mbase "m" "gpt" 100
      = Except.error "Unsupported model type. Use 'seq2seq' or 'causal'." :=
  (initQA_model_type_validation Mbase "m" "gpt" 100).1 (by decide) (by decide)

/-- Claim C10: supplying `output_structure = {}` behaves exactly like
supplying no structure — the delegation test is on the dict's truthiness, so
the plain text path runs and a string is returned; only a non-empty dict
takes the structured path. -/
theorem answer_question_empty_structure_like_none (M : Model) (qa : QA)
    (prompt : String) (use_rag : Bool) (max_length : Nat) :
    answer_question M qa prompt use_rag max_length (some []) =
      answer_question M qa prompt use_rag max_length Option.none ∧
    (∀ fp, buildFullPrompt M qa prompt use_rag = Except.ok fp →
      (∃ s, answer_question M qa prompt use_rag max_length (some [])
          = Except.ok (Answer.text s)) ∧
      (∀ d, d ≠ [] →
        answer_question M qa prompt use_rag max_length (some d)
          = Except.ok (Answer.structured
              (generate_structured_output M qa fp d max_length)))) := by
  constructor
  · unfold answer_question
    rfl
  · intro fp hfp
    constructor
    · rw [answer_question_of_fullPrompt M qa prompt use_rag max_length
        (some []) fp hfp]
      rw [if_neg (by simp [truthyStructure])]
      cases tokenizeGenerateDecode M qa.model_type fp max_length with
      | ok a => exact ⟨a, rfl⟩
      | error e => exact ⟨"An error occurred: " ++ e, rfl⟩
    · intro d hd
      rw [answer_question_of_fullPrompt M qa prompt use_rag max_length
        (some d) fp hfp]
      have hne : d.isEmpty = false := by
        cases d with
        | nil => exact absurd rfl hd
        | cons a l => rfl
      rw [if_pos (by simp [truthyStructure, hne])]
      rfl

/-- Witness for C10: with the empty dict the plain path runs and a string
comes back. -/
theorem answer_question_empty_structure_like_none_witness :
    ∃ s, answer_question Mbase qaEmpty "q" false 100 (some [])
        = Except.ok (Answer.text s) :=
  ((answer_question_empty_structure_like_none Mbase qaEmpty "q" false 100).2
    ("Question: " ++ "q" ++ "\n\nAnswer:") rfl).1

end RAG
